import Mathlib

/-!
Verification of the nodela-js-sdk client library.

This file gives a shallow embedding of the SDK's functional core —
error classification (src/client.ts HTTPClient.handleError,
src/errors APIError.fromResponse), configuration validation
(src/config.ts Config), the invoices/transactions resource helpers
(BaseResource.buildPath / buildQueryString, Invoices.create), and the
HTTP verb wrappers — and proves the specified properties about it.

JavaScript values are modelled by the inductive `JSValue`; JavaScript
numbers by `JSNum` (an integer or NaN; every numeric value appearing in
the SDK's logic is integral). Thrown errors are modelled as values of
`JSError`: the SDK's class hierarchy collapses to a record carrying the
class name, `message`, `code`, optional `statusCode`, `details` and the
rate-limit `retryAfter` field; a bare built-in `new Error(msg)` is the
`JSError.plain` constructor.
-/

/-- A JavaScript number as used by the SDK: an integer or NaN.
(No non-integral float appears in any code path modelled here.) -/
inductive JSNum where
  | nan : JSNum
  | int : Int → JSNum
deriving DecidableEq, Repr

/-- A JavaScript value: undefined, null, booleans, numbers, strings,
arrays and plain objects (ordered field lists, keys unique). -/
inductive JSValue where
  | undef : JSValue
  | null : JSValue
  | bool : Bool → JSValue
  | num : JSNum → JSValue
  | str : String → JSValue
  | arr : List JSValue → JSValue
  | obj : List (String × JSValue) → JSValue

namespace JSValue

/-- JavaScript `typeof`. Note `typeof null === "object"`, and arrays are
objects. -/
def jsTypeof : JSValue → String
  | .undef => "undefined"
  | .null => "object"
  | .bool _ => "boolean"
  | .num _ => "number"
  | .str _ => "string"
  | .arr _ => "object"
  | .obj _ => "object"

/-- Property access `v?.k` / `v.k` as used by the classifier: fields of a
plain object are looked up; every other value (including null and
undefined under optional chaining, and primitives, whose own properties
never include the keys used here) yields undefined. -/
def getField (v : JSValue) (k : String) : JSValue :=
  match v with
  | .obj fields => (fields.lookup k).getD JSValue.undef
  | _ => JSValue.undef

/-- True exactly when the value is `undefined` or `null` (the filter used
by `buildQueryString`). -/
def isNullish : JSValue → Bool
  | .undef => true
  | .null => true
  | _ => false

end JSValue

/-- The result of `typeof x === 'string' ? x : undefined`: the string if
the value is a string, otherwise nothing. -/
def strIfString : JSValue → Option String
  | .str s => some s
  | _ => none

/-- JavaScript `a || b || ... || dflt` over string-or-undefined operands:
the first operand that is a non-empty string wins (undefined and the
empty string are falsy), otherwise the default. -/
def jsOrChain : List (Option String) → String → String
  | [], dflt => dflt
  | c :: rest, dflt =>
    match c with
    | some s => if s = "" then jsOrChain rest dflt else s
    | none => jsOrChain rest dflt

/-- A thrown error value. `plain` is the built-in `new Error(msg)`;
`sdk` carries the fields of the SDKError class hierarchy
(src/errors/base.ts and src/errors/api-error.ts): the constructor name,
message, machine code, optional statusCode, details, and (for
RateLimitError only) retryAfter. -/
inductive JSError where
  | plain : String → JSError
  | sdk : (name : String) → (message : String) → (code : String) →
      (statusCode : Option JSNum) → (details : JSValue) →
      (retryAfter : Option JSNum) → JSError

namespace JSError

/-- The `message` property of a thrown error. -/
def message : JSError → String
  | .plain m => m
  | .sdk _ m _ _ _ _ => m

/-- The `code` property (empty for a bare built-in Error, which has no
`code` field). -/
def code : JSError → String
  | .plain _ => ""
  | .sdk _ _ c _ _ _ => c

/-- The `statusCode` property. -/
def statusCode : JSError → Option JSNum
  | .plain _ => none
  | .sdk _ _ _ sc _ _ => sc

/-- The `details` property. -/
def details : JSError → JSValue
  | .plain _ => JSValue.undef
  | .sdk _ _ _ _ d _ => d

/-- The `retryAfter` property (RateLimitError only). -/
def retryAfter : JSError → Option JSNum
  | .plain _ => none
  | .sdk _ _ _ _ _ r => r

/-- Whether the error is an instance of the ValidationError class. -/
def isValidationError : JSError → Bool
  | .sdk n _ _ _ _ _ => n = "ValidationError"
  | .plain _ => false

end JSError

/-- Constructor `new APIError(message, statusCode?, details?)`
(src/errors/api-error.ts): code API_ERROR. -/
def mkAPIError (message : String) (statusCode : Option JSNum)
    (details : JSValue) : JSError :=
  JSError.sdk "APIError" message "API_ERROR" statusCode details none

/-- Constructor `new AuthenticationError(message)`: code
AUTHENTICATION_ERROR, statusCode fixed at 401. -/
def mkAuthenticationError (message : String) : JSError :=
  JSError.sdk "AuthenticationError" message "AUTHENTICATION_ERROR"
    (some (JSNum.int 401)) JSValue.undef none

/-- Constructor `new RateLimitError(message, retryAfter?)`: code
RATE_LIMIT_ERROR, statusCode fixed at 429. -/
def mkRateLimitError (message : String) (retryAfter : Option JSNum) : JSError :=
  JSError.sdk "RateLimitError" message "RATE_LIMIT_ERROR"
    (some (JSNum.int 429)) JSValue.undef retryAfter

/-- Constructor `new ValidationError(message, details?)`: code
VALIDATION_ERROR, no statusCode. -/
def mkValidationError (message : String) (details : JSValue) : JSError :=
  JSError.sdk "ValidationError" message "VALIDATION_ERROR" none details none

/-- Whether a character is in the whitespace class skipped by JavaScript
`parseInt` (the common ASCII whitespace characters). -/
def isJSWhitespace (c : Char) : Bool :=
  c = ' ' || c = '\t' || c = '\n' || c = '\r' || c = '\x0b' || c = '\x0c'

/-- Numeric value of a digit character under a given radix, if valid. -/
def digitVal (c : Char) : Option Nat :=
  if 48 ≤ c.toNat ∧ c.toNat ≤ 57 then some (c.toNat - 48)
  else if 97 ≤ c.toNat ∧ c.toNat ≤ 102 then some (c.toNat - 97 + 10)
  else if 65 ≤ c.toNat ∧ c.toNat ≤ 70 then some (c.toNat - 65 + 10)
  else none

/-- Accumulate the longest leading run of digits valid in `radix`;
`acc = none` means no digit has been consumed yet (parseInt stops at the
first invalid character and yields NaN when it consumed no digit). -/
def parseDigits (radix : Nat) : List Char → Option Nat → Option Nat
  | [], acc => acc
  | c :: cs, acc =>
    match digitVal c with
    | some d =>
      if d < radix then parseDigits radix cs (some ((acc.getD 0) * radix + d))
      else acc
    | none => acc

/-- Strip an optional leading sign, returning the sign and the rest. -/
def stripSign : List Char → Int × List Char
  | '+' :: rest => (1, rest)
  | '-' :: rest => (-1, rest)
  | cs => (1, cs)

/-- Detect a hexadecimal prefix (0x / 0X), as `parseInt` does when no
radix argument is given, returning the radix and the rest. -/
def stripRadix : List Char → Nat × List Char
  | '0' :: 'x' :: rest => (16, rest)
  | '0' :: 'X' :: rest => (16, rest)
  | cs => (10, cs)

/-- JavaScript `parseInt(s)` with no radix argument: skip leading
whitespace, optional sign, optional 0x prefix (radix 16, else 10), read
the longest valid digit run; NaN when no digit was read. -/
def jsParseInt (s : String) : JSNum :=
  let cs := s.toList.dropWhile isJSWhitespace
  let p1 := stripSign cs
  let p2 := stripRadix p1.2
  match parseDigits p2.1 p2.2 none with
  | none => JSNum.nan
  | some n => JSNum.int (p1.1 * (n : Int))

/-- A received HTTP response as seen by the axios error object:
status, response headers (axios lowercases header names; values are
strings), and the parsed body. -/
structure AxiosResponse where
  status : Nat
  headers : List (String × String)
  data : JSValue

/-- The axios error handed to the response interceptor: `response` is
absent when no response was received (network failure), and `message`
is the transport failure description. -/
structure AxiosErrorInput where
  response : Option AxiosResponse
  message : String

/-- Source `APIError.fromResponse(status, data)` (src/errors/api-error.ts):
message is the first truthy of body.message-if-string,
body.error-if-string, body.error.message-if-error-object-and-string,
else the status default; details is the whole body. -/
def APIError.fromResponse (status : Nat) (data : JSValue) : JSError :=
  mkAPIError
    (jsOrChain
      [strIfString (data.getField "message"),
       strIfString (data.getField "error"),
       if (data.getField "error").jsTypeof = "object" then
         strIfString ((data.getField "error").getField "message")
       else none]
      ("API request failed with status code " ++ toString status))
    (some (JSNum.int status)) data

/-- Source `HTTPClient.handleError` (src/client.ts): classification of a failed
transport outcome into the thrown typed error. No response → APIError
with status 0; 401 → AuthenticationError with body.message when it is a
truthy string, else the default; 429 → RateLimitError with retryAfter
from the retry-after header (`retryAfter ? parseInt(retryAfter) :
undefined`, so a missing or empty header gives undefined); any other
status → `APIError.fromResponse`. -/
def handleError (error : AxiosErrorInput) : JSError :=
  match error.response with
  | none =>
    mkAPIError "Network error occurred" (some (JSNum.int 0))
      (JSValue.obj [("originalError", JSValue.str error.message)])
  | some r =>
    if r.status = 401 then
      mkAuthenticationError
        (jsOrChain [strIfString (r.data.getField "message")]
          "Invalid API key or unauthorized access")
    else if r.status = 429 then
      mkRateLimitError "Rate limit exceeded"
        (match r.headers.lookup "retry-after" with
         | some h => if h = "" then none else some (jsParseInt h)
         | none => none)
    else
      APIError.fromResponse r.status r.data

/-! ## Configuration (src/config.ts) -/

/-- Comparison `a <= b` under JavaScript semantics: false when `a` is
NaN. -/
def JSNum.jsLe (a : JSNum) (b : Int) : Bool :=
  match a with
  | .nan => false
  | .int n => n ≤ b

/-- Comparison `a < b` under JavaScript semantics: false when `a` is
NaN. -/
def JSNum.jsLt (a : JSNum) (b : Int) : Bool :=
  match a with
  | .nan => false
  | .int n => n < b

/-- JavaScript `String.prototype.startsWith`, expressed over character
lists. -/
def jsStartsWith (p s : String) : Bool :=
  p.toList.isPrefixOf s.toList

/-- JavaScript `String.prototype.trim`, over the common ASCII whitespace
characters: leading and trailing whitespace removed. -/
def jsTrim (s : String) : String :=
  String.mk (((s.toList.dropWhile isJSWhitespace).reverse.dropWhile isJSWhitespace).reverse)

/-- Source `Config.isNodelaApiKey`: the key starts with the sandbox prefix
nk_test_ or the live prefix nk_live_. -/
def isNodelaApiKey (apiKey : String) : Bool :=
  jsStartsWith "nk_test_" apiKey || jsStartsWith "nk_live_" apiKey

/-- Source `Config.validateApiKey` (src/config.ts): rejects a falsy (empty)
string, a whitespace-only string (trim = empty), or a string without a
Nodela prefix, throwing a bare `Error`. The `typeof apiKey !== 'string'`
disjunct of the source is always false in this string-typed model. -/
def Config.validateApiKey (apiKey : String) : Option JSError :=
  if apiKey = "" || jsTrim apiKey = "" || !(isNodelaApiKey apiKey) then
    some (JSError.plain "Invalid API key provided. Please provide a valid API key.")
  else none

/-- The SDKConfigOptions record: each field optional (`none` = the key
is absent / undefined). Option values are numbers in this model, so the
source's `typeof !== 'number'` disjuncts are always false. -/
structure SDKConfigOptions where
  timeout : Option JSNum
  maxRetries : Option JSNum
  environment : Option String
deriving DecidableEq, Repr

/-- The resolved Required-SDKConfig record stored in a Config. -/
structure SDKConfigFull where
  apiKey : String
  baseURL : String
  timeout : JSNum
  maxRetries : JSNum
  environment : String
deriving DecidableEq, Repr

/-- Source `Config.validateOptions` (src/config.ts): timeout, when provided,
must not satisfy `timeout <= 0`; maxRetries, when provided, must not
satisfy `maxRetries < 0`; environment, when provided, must be
production or sandbox. First failure wins; each failure throws a bare
`Error` with a field-specific message. -/
def Config.validateOptions (options : SDKConfigOptions) : Option JSError :=
  if (match options.timeout with
      | some t => t.jsLe 0
      | none => false) then
    some (JSError.plain "Invalid timeout value. Timeout must be a positive number.")
  else if (match options.maxRetries with
      | some r => r.jsLt 0
      | none => false) then
    some (JSError.plain "Invalid maxRetries value. maxRetries must be a non-negative number.")
  else if (match options.environment with
      | some e => !(e = "production" || e = "sandbox")
      | none => false) then
    some (JSError.plain "Invalid environment value. Environment must be either \"production\" or \"sandbox\".")
  else none

/-- The Config constructor (src/config.ts): validate the key, validate
the options when provided, then resolve defaults — baseURL fixed,
timeout 5000, maxRetries 3, environment production (`??` applies only
to absent fields). A validation failure is the thrown error. -/
def Config.construct (apiKey : String) (options : Option SDKConfigOptions) :
    Except JSError SDKConfigFull :=
  match Config.validateApiKey apiKey with
  | some e => Except.error e
  | none =>
    match (match options with
           | some o => Config.validateOptions o
           | none => none) with
    | some e => Except.error e
    | none =>
      Except.ok
        { apiKey := apiKey
          baseURL := "https://api.nodela.co"
          timeout := (options.bind (fun o => o.timeout)).getD (JSNum.int 5000)
          maxRetries := (options.bind (fun o => o.maxRetries)).getD (JSNum.int 3)
          environment := (options.bind (fun o => o.environment)).getD "production" }

/-! ## Resource helpers (src/resources/base.ts) -/

/-- JavaScript `Array.prototype.join(sep)`: elements concatenated with
the separator between consecutive elements; empty list gives "". -/
def joinSep (sep : String) : List String → String
  | [] => ""
  | [x] => x
  | x :: xs => x ++ sep ++ joinSep sep xs

/-- Source `BaseResource.buildPath(...segments)`:
`[this.basePath, ...segments].join("/")`. -/
def BaseResource.buildPath (basePath : String) (segments : List String) : String :=
  joinSep "/" (basePath :: segments)

/-- Characters left unescaped by JavaScript `encodeURIComponent`:
letters, digits, and - _ . ! ~ * ' ( ). -/
def isUnreservedURIChar (c : Char) : Bool :=
  (65 ≤ c.toNat && c.toNat ≤ 90) || (97 ≤ c.toNat && c.toNat ≤ 122) ||
  (48 ≤ c.toNat && c.toNat ≤ 57) ||
  c = '-' || c = '_' || c = '.' || c = '!' || c = '~' || c = '*' ||
  c.toNat = 39 || c = '(' || c = ')'

/-- Uppercase hexadecimal digit for a value below 16. -/
def hexDigitChar (n : Nat) : Char :=
  if n < 10 then Char.ofNat (48 + n) else Char.ofNat (55 + n)

/-- The UTF-8 bytes of a character (Lean's Char excludes surrogates, on
which encodeURIComponent would throw). -/
def utf8Bytes (c : Char) : List Nat :=
  let n := c.toNat
  if n < 128 then [n]
  else if n < 2048 then [192 + n / 64, 128 + n % 64]
  else if n < 65536 then [224 + n / 4096, 128 + (n / 64) % 64, 128 + n % 64]
  else [240 + n / 262144, 128 + (n / 4096) % 64, 128 + (n / 64) % 64, 128 + n % 64]

/-- Percent-encoding of one byte, uppercase hex. -/
def percentByte (b : Nat) : String :=
  String.mk ['%', hexDigitChar (b / 16), hexDigitChar (b % 16)]

/-- JavaScript `encodeURIComponent`: unreserved characters kept, every
other character percent-encoded byte by byte in UTF-8. -/
def encodeURIComponent (s : String) : String :=
  String.join (s.toList.map (fun c =>
    if isUnreservedURIChar c then String.mk [c]
    else String.join ((utf8Bytes c).map percentByte)))

mutual

/-- JavaScript `String(value)` for the values of this model: undefined,
null, booleans, numbers (NaN included), strings, arrays (elements
joined with commas, null/undefined elements becoming empty), and plain
objects. -/
def jsToString : JSValue → String
  | .undef => "undefined"
  | .null => "null"
  | .bool b => if b then "true" else "false"
  | .num .nan => "NaN"
  | .num (.int n) => toString n
  | .str s => s
  | .arr xs => joinSep "," (jsToStringElems xs)
  | .obj _ => "[object Object]"

/-- Stringification of array elements for `Array.prototype.toString`:
null and undefined elements become the empty string. -/
def jsToStringElems : List JSValue → List String
  | [] => []
  | v :: vs =>
    (match v with
     | .undef => ""
     | .null => ""
     | w => jsToString w) :: jsToStringElems vs

end

/-- Source `BaseResource.buildQueryString(params?)` (src/resources/base.ts).
The params object is modelled as its own enumerable entries in
`Object.entries` order; `none` models the undefined (or null) argument,
for which `!params` short-circuits to "". Entries whose value is
undefined or null are filtered out; the survivors are mapped to
`encodeURIComponent(key)=encodeURIComponent(String(value))`, joined
with ampersands, and a leading question mark is added when the joined
string is truthy (non-empty). -/
def BaseResource.buildQueryString (params : Option (List (String × JSValue))) : String :=
  match params with
  | none => ""
  | some entries =>
    let queryString := joinSep "&"
      ((entries.filter (fun kv => !kv.2.isNullish)).map
        (fun kv => encodeURIComponent kv.1 ++ "=" ++ encodeURIComponent (jsToString kv.2)))
    if queryString = "" then "" else "?" ++ queryString

/-! ## Invoices resource (src/resources/invoices.ts) -/

/-- The fixed supported-currency list, in source order. -/
def SUPPORTED_CURRENCIES : List String :=
  ["USD", "CAD", "MXN", "BRL", "ARS", "CLP", "COP", "PEN", "JMD", "TTD",
   "EUR", "GBP", "CHF", "SEK", "NOK", "DKK", "PLN", "CZK", "HUF", "RON",
   "BGN", "HRK", "ISK", "TRY", "RUB", "UAH",
   "NGN", "ZAR", "KES", "GHS", "EGP", "MAD", "TZS", "UGX", "XOF", "XAF", "ETB",
   "JPY", "CNY", "INR", "KRW", "IDR", "MYR", "THB", "PHP", "VND", "SGD",
   "HKD", "TWD", "BDT", "PKR", "LKR",
   "AED", "SAR", "QAR", "KWD", "BHD", "OMR", "ILS", "JOD",
   "AUD", "NZD", "FJD"]

/-- JavaScript `String.prototype.toUpperCase`, restricted to its ASCII
behaviour (every currency code and every input exercised is ASCII). -/
def jsToUpperCase (s : String) : String :=
  String.mk (s.toList.map Char.toUpper)

/-- The optional customer object of CreateInvoiceParams. -/
structure InvoiceCustomer where
  name : Option String
  email : String
deriving DecidableEq, Repr

/-- CreateInvoiceParams (src/resources/invoices.ts): amount and currency
required, the rest optional. -/
structure CreateInvoiceParams where
  amount : JSNum
  currency : String
  success_url : Option String
  cancel_url : Option String
  webhook_url : Option String
  reference : Option String
  customer : Option InvoiceCustomer
  title : Option String
  description : Option String
deriving DecidableEq, Repr

/-- Outcome of `Invoices.create` before any transport activity: either a
synchronously thrown error, or a POST handed to the dispatcher with its
path and body. -/
inductive CreateOutcome where
  | thrown : JSError → CreateOutcome
  | posted : String → CreateInvoiceParams → CreateOutcome

/-- Source `Invoices.create(params)` (src/resources/invoices.ts): uppercase the
currency; when it is not in SUPPORTED_CURRENCIES, throw a bare `Error`
whose message quotes the original currency and the comma-joined
supported list; otherwise POST `{...params, currency: upper}` to the
base path /v1/invoices. -/
def Invoices.create (params : CreateInvoiceParams) : CreateOutcome :=
  let upper := jsToUpperCase params.currency
  if !(SUPPORTED_CURRENCIES.contains upper) then
    CreateOutcome.thrown (JSError.plain
      ("Unsupported currency: \"" ++ params.currency ++
       "\". Supported currencies: " ++ joinSep ", " SUPPORTED_CURRENCIES))
  else
    CreateOutcome.posted "/v1/invoices" { params with currency := upper }

/-! ## HTTP verb wrappers (src/client.ts) -/

/-- An AxiosRequestConfig as used by the verb wrappers: the fields the
wrappers set (method, url, data) plus the caller-suppliable options the
spread copies through (headers and query params as representatives).
`none` models an absent key; for `data`, `some JSValue.undef` models a
key explicitly present with value undefined. -/
structure AxiosRequestConfig where
  method : Option String
  url : Option String
  data : Option JSValue
  headers : Option (List (String × String))
  params : Option JSValue

/-- The empty request config: spreading an undefined `config` argument
(`{...config}` with config undefined) contributes no keys. -/
def emptyRequestConfig : AxiosRequestConfig :=
  { method := none, url := none, data := none, headers := none, params := none }

/-- Source `HTTPClient.get(url, config?)`: `{ ...config, method: 'GET', url }` —
the spread first, then method and url overriding; no data key is
written. -/
def HTTPClient.get (url : String) (config : Option AxiosRequestConfig) :
    AxiosRequestConfig :=
  let c := config.getD emptyRequestConfig
  { c with method := some "GET", url := some url }

/-- Source `HTTPClient.post(url, data?, config?)`:
`{ ...config, method: 'POST', url, data }` — the explicit data key is
written even when the argument is undefined, overriding any data field
of the caller's config. -/
def HTTPClient.post (url : String) (data : JSValue)
    (config : Option AxiosRequestConfig) : AxiosRequestConfig :=
  let c := config.getD emptyRequestConfig
  { c with method := some "POST", url := some url, data := some data }

/-- Source `HTTPClient.put(url, data?, config?)`:
`{ ...config, method: 'PUT', url, data }`. -/
def HTTPClient.put (url : String) (data : JSValue)
    (config : Option AxiosRequestConfig) : AxiosRequestConfig :=
  let c := config.getD emptyRequestConfig
  { c with method := some "PUT", url := some url, data := some data }

/-- Source `HTTPClient.patch(url, data?, config?)`:
`{ ...config, method: 'PATCH', url, data }`. -/
def HTTPClient.patch (url : String) (data : JSValue)
    (config : Option AxiosRequestConfig) : AxiosRequestConfig :=
  let c := config.getD emptyRequestConfig
  { c with method := some "PATCH", url := some url, data := some data }

/-- Source `HTTPClient.delete(url, config?)`:
`{ ...config, method: 'DELETE', url }` — like get, no data key is
written. -/
def HTTPClient.delete (url : String) (config : Option AxiosRequestConfig) :
    AxiosRequestConfig :=
  let c := config.getD emptyRequestConfig
  { c with method := some "DELETE", url := some url }

/-! ## Object identity for the defensive-copy contract (src/config.ts
Config.getAll, src/index.ts Nodela.getConfig)

Reference semantics is made explicit with a small heap: every object is
an address, `Heap.contents` gives the record stored at each address,
and `Heap.next` is the next fresh address (every live address is below
it). All fields of SDKConfigFull are primitives, so the source's
shallow spread `{ ...this.config }` copies the whole observable value. -/

/-- A heap of SDKConfigFull objects. -/
structure Heap where
  contents : Nat → SDKConfigFull
  next : Nat

/-- Overwrite the object at address `a` — the model of a caller mutating
an object it holds (a sequence of field assignments composes to an
overwrite of the record). -/
def Heap.write (h : Heap) (a : Nat) (v : SDKConfigFull) : Heap :=
  { h with contents := fun b => if b = a then v else h.contents b }

/-- Allocate a fresh object holding `v`, returning its address. -/
def Heap.alloc (h : Heap) (v : SDKConfigFull) : Nat × Heap :=
  (h.next,
   { contents := fun b => if b = h.next then v else h.contents b,
     next := h.next + 1 })

/-- Source `Config.getAll()` (src/config.ts): `return { ...this.config }` —
allocate a fresh object whose fields are copies of the stored
config's, and return it. -/
def Config.getAll (h : Heap) (self : Nat) : Nat × Heap :=
  h.alloc (h.contents self)

/-- Source `Nodela.getConfig()` (src/index.ts): delegates to
`this.config.getAll()`. -/
def Nodela.getConfig (h : Heap) (self : Nat) : Nat × Heap :=
  Config.getAll h self

/-- A sequence of caller mutations applied to the object at address
`a`. -/
def applyMutations (a : Nat) : Heap → List SDKConfigFull → Heap
  | h, [] => h
  | h, v :: vs => applyMutations a (h.write a v) vs

/-! ## C1: message extraction in error classification -/

/-- The extraction chain exactly as the claim words it. -/
def extractMessageSpec (body : JSValue) : Option String :=
  match body.getField "message" with
  | .str s => some s
  | _ =>
    match body.getField "error" with
    | .str s => some s
    | _ =>
      if (body.getField "error").jsTypeof = "object" then
        match (body.getField "error").getField "message" with
        | .str s => some s
        | _ => none
      else none

def nonEmptyStr : JSValue → Option String
  | .str s => if s = "" then none else some s
  | _ => none

def extractMessageNE (body : JSValue) : Option String :=
  match nonEmptyStr (body.getField "message") with
  | some s => some s
  | none =>
    match nonEmptyStr (body.getField "error") with
    | some s => some s
    | none =>
      if (body.getField "error").jsTypeof = "object" then
        nonEmptyStr ((body.getField "error").getField "message")
      else none

lemma jsOrChain_cons_strIfString (v : JSValue) (rest : List (Option String)) (d : String) :
    jsOrChain (strIfString v :: rest) d =
      match nonEmptyStr v with
      | some s => s
      | none => jsOrChain rest d := by
  cases v
  case str s => by_cases hs : s = "" <;> simp [jsOrChain, strIfString, nonEmptyStr, hs]
  all_goals rfl

lemma fromResponse_eq (status : Nat) (body : JSValue) :
    APIError.fromResponse status body =
      mkAPIError
        ((extractMessageNE body).getD ("API request failed with status code " ++ toString status))
        (some (JSNum.int status)) body := by
  unfold APIError.fromResponse extractMessageNE
  congr 1
  rw [jsOrChain_cons_strIfString]
  cases h1 : nonEmptyStr (body.getField "message") with
  | some s => simp
  | none =>
    simp only []
    rw [jsOrChain_cons_strIfString]
    cases h2 : nonEmptyStr (body.getField "error") with
    | some s => simp
    | none =>
      simp only []
      by_cases hobj : (body.getField "error").jsTypeof = "object"
      · rw [if_pos hobj, if_pos hobj]
        rw [jsOrChain_cons_strIfString]
        cases h3 : nonEmptyStr ((body.getField "error").getField "message") <;> simp [jsOrChain]
      · rw [if_neg hobj, if_neg hobj]
        simp [jsOrChain]

lemma handleError_401 (headers : List (String × String)) (body : JSValue) (emsg : String) :
    handleError { response := some { status := 401, headers := headers, data := body },
                  message := emsg } =
      mkAuthenticationError
        ((nonEmptyStr (body.getField "message")).getD "Invalid API key or unauthorized access") := by
  simp only [handleError]
  rw [if_pos trivial]
  congr 1
  rw [jsOrChain_cons_strIfString]
  cases h : nonEmptyStr (body.getField "message") <;> simp [jsOrChain]

lemma handleError_default (status : Nat) (headers : List (String × String)) (body : JSValue)
    (emsg : String) (h1 : status ≠ 401) (h2 : status ≠ 429) :
    handleError { response := some { status := status, headers := headers, data := body },
                  message := emsg } = APIError.fromResponse status body := by
  simp only [handleError]
  rw [if_neg h1, if_neg h2]

theorem C1_amended (status : Nat) (headers : List (String × String)) (body : JSValue)
    (emsg : String) (h429 : status ≠ 429) :
    (handleError { response := some { status := status, headers := headers, data := body },
                   message := emsg }).message =
      (if status = 401 then
        (nonEmptyStr (body.getField "message")).getD "Invalid API key or unauthorized access"
      else
        (extractMessageNE body).getD ("API request failed with status code " ++ toString status)) ∧
    (status = 401 →
      handleError { response := some { status := status, headers := headers, data := body },
                    message := emsg } =
        mkAuthenticationError
          ((nonEmptyStr (body.getField "message")).getD "Invalid API key or unauthorized access")) ∧
    (status ≠ 401 →
      handleError { response := some { status := status, headers := headers, data := body },
                    message := emsg } =
        mkAPIError
          ((extractMessageNE body).getD ("API request failed with status code " ++ toString status))
          (some (JSNum.int status)) body) := by
  by_cases h1 : status = 401
  · subst h1
    rw [handleError_401]
    refine ⟨by simp [mkAuthenticationError, JSError.message], fun _ => rfl, fun h => absurd rfl h⟩
  · rw [handleError_default status headers body emsg h1 h429, fromResponse_eq]
    refine ⟨by simp [mkAPIError, JSError.message, h1], fun h => absurd h h1, fun _ => rfl⟩

/-- Concrete body with only an error-string field. -/
def bodyErrCustom : JSValue := JSValue.obj [("error", JSValue.str "Custom")]

/-- Concrete body with an empty-string message field. -/
def bodyEmptyMsg : JSValue := JSValue.obj [("message", JSValue.str "")]

/-- Concrete body with message "X". -/
def bodyMsgX : JSValue := JSValue.obj [("message", JSValue.str "X")]

/-- A received response wrapped as the axios error input. -/
def respInput (status : Nat) (headers : List (String × String)) (body : JSValue) : AxiosErrorInput :=
  { response := some { status := status, headers := headers, data := body }, message := "" }

theorem C1_counterexample :
    ((handleError (respInput 401 [] bodyErrCustom)).message =
      "Invalid API key or unauthorized access" ∧
     extractMessageSpec bodyErrCustom = some "Custom") ∧
    ((handleError (respInput 404 [] bodyEmptyMsg)).message =
      "API request failed with status code 404" ∧
     extractMessageSpec bodyEmptyMsg = some "") :=
  ⟨⟨rfl, rfl⟩, ⟨rfl, rfl⟩⟩

theorem C1_amended_witness :
    ((404 : Nat) ≠ 429) ∧
    ((handleError { response := some { status := 404, headers := [], data := bodyMsgX }, message := "" }).message =
      (if (404 : Nat) = 401 then
        (nonEmptyStr (bodyMsgX.getField "message")).getD "Invalid API key or unauthorized access"
      else
        (extractMessageNE bodyMsgX).getD ("API request failed with status code " ++ toString (404 : Nat))) ∧
     ((404 : Nat) = 401 →
       handleError { response := some { status := 404, headers := [], data := bodyMsgX }, message := "" } =
         mkAuthenticationError
           ((nonEmptyStr (bodyMsgX.getField "message")).getD "Invalid API key or unauthorized access")) ∧
     ((404 : Nat) ≠ 401 →
       handleError { response := some { status := 404, headers := [], data := bodyMsgX }, message := "" } =
         mkAPIError
           ((extractMessageNE bodyMsgX).getD ("API request failed with status code " ++ toString (404 : Nat)))
           (some (JSNum.int 404)) bodyMsgX)) :=
  ⟨by decide, C1_amended 404 [] bodyMsgX "" (by decide)⟩

/-! ## C2 and C3: network errors and rate limiting -/

/-- C2: for every no-response transport outcome, classification returns
an APIError with message 'Network error occurred', the reserved status
sentinel 0, and details.originalError equal to the underlying failure
description. -/
theorem C2_network_error (desc : String) :
    (handleError { response := none, message := desc }).message = "Network error occurred" ∧
    (handleError { response := none, message := desc }).statusCode = some (JSNum.int 0) ∧
    (handleError { response := none, message := desc }).code = "API_ERROR" ∧
    (handleError { response := none, message := desc }).details.getField "originalError" =
      JSValue.str desc := by
  refine ⟨rfl, rfl, rfl, ?_⟩
  simp [handleError, mkAPIError, JSError.details, JSValue.getField, List.lookup]

/-- C3 counterexample: a 429 response whose retry-after header is
present but not parseable ("abc") yields retryAfter = NaN — a present
value, not an absent one as the claim states. -/
theorem C3_counterexample :
    (handleError (respInput 429 [("retry-after", "abc")] JSValue.null)).retryAfter =
      some JSNum.nan ∧
    some JSNum.nan ≠ (none : Option JSNum) :=
  ⟨rfl, by decide⟩

/-- The retryAfter value the 429 branch computes from the retry-after
header: `retryAfter ? parseInt(retryAfter) : undefined` — absent when
the header is missing or empty (falsy), otherwise parseInt (NaN when
unparseable). -/
def retryAfterOf (header : Option String) : Option JSNum :=
  match header with
  | some h => if h = "" then none else some (jsParseInt h)
  | none => none

/-- C3 amended: a 429 response is classified as a RateLimitError with
message 'Rate limit exceeded' and statusCode 429; retryAfterSeconds is
parseInt of the retry-after header when the header is present and
non-empty (NaN when that parse fails), and absent when the header is
missing or empty. -/
theorem C3_amended (headers : List (String × String)) (body : JSValue)
    (ra : Option String) (hra : headers.lookup "retry-after" = ra) :
    handleError { response := some { status := 429, headers := headers, data := body },
                  message := "" } =
      mkRateLimitError "Rate limit exceeded" (retryAfterOf ra) := by
  subst hra
  simp only [handleError]
  rw [if_neg (by decide : ¬ (429 = 401)), if_pos trivial]
  cases List.lookup "retry-after" headers <;> rfl

/-- C3 witness: header value "60" gives retryAfter 60. -/
theorem C3_amended_witness :
    [("retry-after", "60")].lookup "retry-after" = some "60" ∧
    handleError { response := some { status := 429, headers := [("retry-after", "60")],
                                     data := JSValue.null }, message := "" } =
      mkRateLimitError "Rate limit exceeded" (some (JSNum.int 60)) :=
  ⟨rfl, C3_amended [("retry-after", "60")] JSValue.null (some "60") rfl⟩

/-! ## C4, C5, C6: invoice currency validation and configuration -/

/-- Invoice params with only the required fields set. -/
def minimalParams (amount : Int) (currency : String) : CreateInvoiceParams :=
  { amount := JSNum.int amount, currency := currency, success_url := none,
    cancel_url := none, webhook_url := none, reference := none, customer := none,
    title := none, description := none }

/-- C4: evaluation of `Invoices.create` at the failing input. The
unsupported currency "XYZ" throws, before any transport call, a bare
built-in Error — not a ValidationError — whose message quotes the
currency and the full comma-joined supported list; and a supported
lowercase currency "ngn" is posted uppercased with everything else
unchanged. -/
theorem C4_code_behavior :
    Invoices.create (minimalParams 100 "XYZ") =
      CreateOutcome.thrown (JSError.plain
        ("Unsupported currency: \"XYZ\". Supported currencies: " ++
         joinSep ", " SUPPORTED_CURRENCIES)) ∧
    (JSError.plain
        ("Unsupported currency: \"XYZ\". Supported currencies: " ++
         joinSep ", " SUPPORTED_CURRENCIES)).isValidationError = false ∧
    (JSError.plain
        ("Unsupported currency: \"XYZ\". Supported currencies: " ++
         joinSep ", " SUPPORTED_CURRENCIES)).code ≠ "VALIDATION_ERROR" ∧
    Invoices.create (minimalParams 50 "ngn") =
      CreateOutcome.posted "/v1/invoices" (minimalParams 50 "NGN") :=
  ⟨by rfl, rfl, by simp [JSError.code], by rfl⟩

/-- C5 counterexample: an invalidly prefixed credential makes
construction fail with a bare built-in Error (no VALIDATION_ERROR code,
not a ValidationError instance), not the ValidationError the claim
states. -/
theorem C5_counterexample :
    Config.construct "sk_test_123" none =
      Except.error (JSError.plain "Invalid API key provided. Please provide a valid API key.") ∧
    (JSError.plain "Invalid API key provided. Please provide a valid API key.").isValidationError
      = false ∧
    (JSError.plain "Invalid API key provided. Please provide a valid API key.").code ≠
      "VALIDATION_ERROR" :=
  ⟨by rfl, rfl, by simp [JSError.code]⟩

/-- C5 amended: every credential that is empty, whitespace-only after
trimming, or lacking the nk_test_ / nk_live_ prefix makes construction
fail, before any network activity, with a bare Error whose message
identifies an invalid credential. -/
theorem C5_amended (apiKey : String) (options : Option SDKConfigOptions)
    (h : apiKey = "" ∨ jsTrim apiKey = "" ∨ isNodelaApiKey apiKey = false) :
    Config.construct apiKey options =
      Except.error (JSError.plain "Invalid API key provided. Please provide a valid API key.") := by
  unfold Config.construct Config.validateApiKey
  rcases h with h | h | h <;> simp [h]

/-- C5 witness: the non-Nodela credential sk_test_123 is rejected. -/
theorem C5_amended_witness :
    isNodelaApiKey "sk_test_123" = false ∧
    Config.construct "sk_test_123" (some { timeout := none, maxRetries := none,
                                           environment := none }) =
      Except.error (JSError.plain "Invalid API key provided. Please provide a valid API key.") :=
  ⟨by decide, C5_amended "sk_test_123" _ (Or.inr (Or.inr (by decide)))⟩

/-- C6: with a valid credential, a provided timeout satisfying
`timeout <= 0` fails construction; a provided maxRetries satisfying
`maxRetries < 0` fails construction; positive timeouts and non-negative
maxRetries (boundary values 1 and 0 included) are accepted with the
provided values stored; and with no options every field resolves to its
default — timeout 5000, maxRetries 3, environment production. -/
theorem C6_config_options (apiKey : String) (hk : Config.validateApiKey apiKey = none) :
    (∀ o : SDKConfigOptions, ∀ t : JSNum, o.timeout = some t → t.jsLe 0 = true →
      ∃ e, Config.construct apiKey (some o) = Except.error e) ∧
    (∀ o : SDKConfigOptions, ∀ r : JSNum, o.maxRetries = some r → r.jsLt 0 = true →
      ∃ e, Config.construct apiKey (some o) = Except.error e) ∧
    (∀ t r : Int, 0 < t → 0 ≤ r →
      Config.construct apiKey (some { timeout := some (JSNum.int t),
                                      maxRetries := some (JSNum.int r),
                                      environment := none }) =
        Except.ok { apiKey := apiKey, baseURL := "https://api.nodela.co",
                    timeout := JSNum.int t, maxRetries := JSNum.int r,
                    environment := "production" }) ∧
    (Config.construct apiKey (some { timeout := some (JSNum.int 1),
                                     maxRetries := some (JSNum.int 0),
                                     environment := none }) =
      Except.ok { apiKey := apiKey, baseURL := "https://api.nodela.co",
                  timeout := JSNum.int 1, maxRetries := JSNum.int 0,
                  environment := "production" }) ∧
    (Config.construct apiKey none =
      Except.ok { apiKey := apiKey, baseURL := "https://api.nodela.co",
                  timeout := JSNum.int 5000, maxRetries := JSNum.int 3,
                  environment := "production" }) := by
  refine ⟨?_, ?_, ?_, ?_, ?_⟩
  · intro o t ht hle
    exact ⟨JSError.plain "Invalid timeout value. Timeout must be a positive number.",
      by simp [Config.construct, Config.validateOptions, hk, ht, hle]⟩
  · intro o r hr hlt
    cases hto : (match o.timeout with
                 | some t => t.jsLe 0
                 | none => false) with
    | true =>
      exact ⟨JSError.plain "Invalid timeout value. Timeout must be a positive number.",
        by simp [Config.construct, Config.validateOptions, hk, hto]⟩
    | false =>
      exact ⟨JSError.plain "Invalid maxRetries value. maxRetries must be a non-negative number.",
        by simp [Config.construct, Config.validateOptions, hk, hto, hr, hlt]⟩
  · intro t r ht hr
    have hle : (JSNum.int t).jsLe 0 = false := by
      simp [JSNum.jsLe]; omega
    have hlt : (JSNum.int r).jsLt 0 = false := by
      simp [JSNum.jsLt]; omega
    simp [Config.construct, Config.validateOptions, hk, hle, hlt]
  · simp [Config.construct, Config.validateOptions, hk, JSNum.jsLe, JSNum.jsLt]
  · simp [Config.construct, hk]

/-- C6 witness: concrete valid credential exercising the hypothesis. -/
theorem C6_config_options_witness :
    Config.validateApiKey "nk_test_abc123" = none ∧
    Config.construct "nk_test_abc123" none =
      Except.ok { apiKey := "nk_test_abc123", baseURL := "https://api.nodela.co",
                  timeout := JSNum.int 5000, maxRetries := JSNum.int 3,
                  environment := "production" } :=
  ⟨by rfl, (C6_config_options "nk_test_abc123" (by rfl)).2.2.2.2⟩

/-! ## C7 and C8: query-string and path building -/

/-- A string of zero length is the empty string. -/
lemma eq_empty_of_length_zero (s : String) (h : s.length = 0) : s = "" := by
  cases s with
  | mk data =>
    cases data with
    | nil => rfl
    | cons c cs => simp [String.length] at h

/-- A key=value pair string is never empty (it contains the equals
sign). -/
lemma pair_ne_empty (a b : String) : a ++ "=" ++ b ≠ "" := by
  intro h
  have hl := congrArg String.length h
  rw [String.length_append, String.length_append] at hl
  have h1 : ("=" : String).length = 1 := rfl
  have h0 : ("" : String).length = 0 := rfl
  rw [h1, h0] at hl
  omega

/-- Joining a list whose head is non-empty never gives the empty
string. -/
lemma joinSep_cons_ne_empty (sep x : String) (xs : List String) (hx : x ≠ "") :
    joinSep sep (x :: xs) ≠ "" := by
  cases xs with
  | nil => simpa [joinSep] using hx
  | cons y ys =>
    simp only [joinSep]
    intro h
    have hl := congrArg String.length h
    rw [String.length_append, String.length_append] at hl
    have h0 : ("" : String).length = 0 := rfl
    rw [h0] at hl
    exact hx (eq_empty_of_length_zero x (by omega))

/-- C7: buildQuery returns "" for undefined and for the empty object;
for any entry list it drops exactly the null/undefined-valued keys,
percent-encodes surviving keys and stringified values, joins them with
ampersands in input order, and prepends the question mark exactly when
at least one pair survives; and the spec's concrete instance
page=1/limit=undefined gives "?page=1". -/
theorem C7_buildQuery (entries : List (String × JSValue)) :
    BaseResource.buildQueryString none = "" ∧
    BaseResource.buildQueryString (some []) = "" ∧
    (BaseResource.buildQueryString (some entries) =
      if (entries.filter (fun kv => !kv.2.isNullish)).isEmpty then ""
      else "?" ++ joinSep "&" ((entries.filter (fun kv => !kv.2.isNullish)).map
        (fun kv => encodeURIComponent kv.1 ++ "=" ++ encodeURIComponent (jsToString kv.2)))) ∧
    BaseResource.buildQueryString
        (some [("page", JSValue.num (JSNum.int 1)), ("limit", JSValue.undef)]) = "?page=1" := by
  refine ⟨rfl, rfl, ?_, by rfl⟩
  cases hk : entries.filter (fun kv => !kv.2.isNullish) with
  | nil =>
    simp only [BaseResource.buildQueryString]
    rw [hk]
    simp [joinSep]
  | cons p ps =>
    simp only [BaseResource.buildQueryString]
    rw [hk]
    simp only [List.map, List.isEmpty]
    rw [if_neg (joinSep_cons_ne_empty "&" _ _ (pair_ne_empty _ _))]
    simp

/-- The spec-side shape of a joined path: one separator before each
segment, in order, empty segments preserved. -/
def pathSuffix : List String → String
  | [] => ""
  | s :: rest => "/" ++ s ++ pathSuffix rest

/-- Joining with "/" equals the head followed by one separator per
remaining element. -/
lemma joinSep_slash (x : String) (l : List String) :
    joinSep "/" (x :: l) = x ++ pathSuffix l := by
  induction l generalizing x with
  | nil => simp [joinSep, pathSuffix]
  | cons y ys ih =>
    simp only [joinSep, pathSuffix]
    rw [ih y]
    simp [String.append_assoc]

/-- C8: buildPath concatenates the base path and each segment in order
with single slash separators, preserving empty segments; in particular
segments a, "", b give base + "/a//b" (doubled separator). -/
theorem C8_buildPath (basePath : String) (segments : List String) :
    BaseResource.buildPath basePath segments = basePath ++ pathSuffix segments ∧
    BaseResource.buildPath basePath ["a", "", "b"] = basePath ++ "/a//b" := by
  constructor
  · exact joinSep_slash basePath segments
  · rw [show BaseResource.buildPath basePath ["a", "", "b"] =
        basePath ++ pathSuffix ["a", "", "b"] from joinSep_slash basePath ["a", "", "b"]]
    rfl

/-! ## C9: defensive copy of the configuration -/

/-- Mutating one address leaves every other address unchanged. -/
lemma applyMutations_other (a b : Nat) (hne : b ≠ a) :
    ∀ (muts : List SDKConfigFull) (h : Heap),
      (applyMutations a h muts).contents b = h.contents b := by
  intro muts
  induction muts with
  | nil => intro h; rfl
  | cons v vs ih =>
    intro h
    rw [show applyMutations a h (v :: vs) = applyMutations a (h.write a v) vs from rfl]
    rw [ih (h.write a v)]
    simp [Heap.write, hne]

/-- C9: getConfig/getAll returns a fresh copy with no aliasing — the
copy holds the stored field values at a fresh address, the stored
configuration is untouched by the read, any sequence of mutations the
caller applies to the returned object leaves the stored configuration
(and what every later getConfig returns) unchanged. -/
theorem C9_defensive_copy (h : Heap) (self : Nat) (muts : List SDKConfigFull)
    (hself : self < h.next) :
    ((Config.getAll h self).2.contents (Config.getAll h self).1 = h.contents self) ∧
    ((Config.getAll h self).1 ≠ self) ∧
    ((Config.getAll h self).2.contents self = h.contents self) ∧
    ((applyMutations (Config.getAll h self).1 (Config.getAll h self).2 muts).contents self =
      h.contents self) ∧
    ((Nodela.getConfig (applyMutations (Config.getAll h self).1 (Config.getAll h self).2 muts)
        self).2.contents
      (Nodela.getConfig (applyMutations (Config.getAll h self).1 (Config.getAll h self).2 muts)
        self).1 = h.contents self) := by
  have hne : self ≠ h.next := Nat.ne_of_lt hself
  have hcopy : (Config.getAll h self).1 = h.next := rfl
  refine ⟨?_, ?_, ?_, ?_, ?_⟩
  · simp [Config.getAll, Heap.alloc]
  · rw [hcopy]; exact fun hc => hne hc.symm
  · simp [Config.getAll, Heap.alloc, hne]
  · rw [hcopy, applyMutations_other h.next self hne muts]
    simp [Config.getAll, Heap.alloc, hne]
  · rw [show ∀ hh : Heap, (Nodela.getConfig hh self).2.contents (Nodela.getConfig hh self).1 =
        hh.contents self from fun hh => by simp [Nodela.getConfig, Config.getAll, Heap.alloc]]
    rw [hcopy, applyMutations_other h.next self hne muts]
    simp [Config.getAll, Heap.alloc, hne]

/-- A resolved configuration value for the concrete heap. -/
def exampleConfig : SDKConfigFull :=
  { apiKey := "nk_test_abc123", baseURL := "https://api.nodela.co",
    timeout := JSNum.int 5000, maxRetries := JSNum.int 3, environment := "production" }

/-- The mutated value a hostile caller writes into the returned copy. -/
def hackedConfig : SDKConfigFull :=
  { exampleConfig with apiKey := "nk_test_hacked" }

/-- A one-object heap holding the stored configuration at address 0. -/
def exampleHeap : Heap :=
  { contents := fun _ => exampleConfig, next := 1 }

/-- C9 witness: concrete heap with the stored config at address 0 and
one caller mutation. -/
theorem C9_defensive_copy_witness :
    (0 < exampleHeap.next) ∧
    (((Config.getAll exampleHeap 0).2.contents (Config.getAll exampleHeap 0).1 =
        exampleHeap.contents 0) ∧
     ((Config.getAll exampleHeap 0).1 ≠ 0) ∧
     ((Config.getAll exampleHeap 0).2.contents 0 = exampleHeap.contents 0) ∧
     ((applyMutations (Config.getAll exampleHeap 0).1 (Config.getAll exampleHeap 0).2
         [hackedConfig]).contents 0 = exampleHeap.contents 0) ∧
     ((Nodela.getConfig (applyMutations (Config.getAll exampleHeap 0).1
           (Config.getAll exampleHeap 0).2 [hackedConfig]) 0).2.contents
       (Nodela.getConfig (applyMutations (Config.getAll exampleHeap 0).1
           (Config.getAll exampleHeap 0).2 [hackedConfig]) 0).1 = exampleHeap.contents 0)) :=
  ⟨by decide, C9_defensive_copy exampleHeap 0 [hackedConfig] (by decide)⟩

/-! ## C10: verb wrappers fix method and url -/

/-- C10: every verb wrapper overrides any caller-supplied method and
url; post/put/patch set the body to exactly the data argument (even the
undefined value), overriding any data in the caller options; get and
delete leave the caller's data and other options untouched. -/
theorem C10_verb_wrappers (url : String) (data : JSValue)
    (config : Option AxiosRequestConfig) :
    ((HTTPClient.get url config).method = some "GET" ∧
     (HTTPClient.get url config).url = some url ∧
     (HTTPClient.get url config).data = (config.getD emptyRequestConfig).data ∧
     (HTTPClient.get url config).headers = (config.getD emptyRequestConfig).headers ∧
     (HTTPClient.get url config).params = (config.getD emptyRequestConfig).params) ∧
    ((HTTPClient.delete url config).method = some "DELETE" ∧
     (HTTPClient.delete url config).url = some url ∧
     (HTTPClient.delete url config).data = (config.getD emptyRequestConfig).data ∧
     (HTTPClient.delete url config).headers = (config.getD emptyRequestConfig).headers) ∧
    ((HTTPClient.post url data config).method = some "POST" ∧
     (HTTPClient.post url data config).url = some url ∧
     (HTTPClient.post url data config).data = some data ∧
     (HTTPClient.post url data config).headers = (config.getD emptyRequestConfig).headers) ∧
    ((HTTPClient.put url data config).method = some "PUT" ∧
     (HTTPClient.put url data config).url = some url ∧
     (HTTPClient.put url data config).data = some data) ∧
    ((HTTPClient.patch url data config).method = some "PATCH" ∧
     (HTTPClient.patch url data config).url = some url ∧
     (HTTPClient.patch url data config).data = some data) :=
  ⟨⟨rfl, rfl, rfl, rfl, rfl⟩, ⟨rfl, rfl, rfl, rfl⟩, ⟨rfl, rfl, rfl, rfl⟩,
   ⟨rfl, rfl, rfl⟩, ⟨rfl, rfl, rfl⟩⟩
